import Mathlib

set_option linter.unusedVariables false

/-!
Verification of the two shim files of sidequery/ghostree:
`src/pkg/dcimgui/ext.cpp` (Dear ImGui binding patches: struct constructor
shims, layout static assertions, and the OpenGL3 shutdown-with-loader-cleanup
workaround) and `src/macos/Sources/Helpers/ObjCExceptionCatcher.h`
(declaration of the ObjC-exception-catching window-attach wrapper).

The loader table `imgl3wProcs` is modelled as a list of slot values with `0`
as the NULL sentinel; other program state is an opaque type parameter so that
frame conditions can be stated.  External collaborators whose code is not in
the repository (the backend's `ImGui_ImplOpenGL3_Shutdown` / `Init`, the
platform `addTabbedWindow` operation, and the body of
`GhosttyAddTabbedWindowSafely`) are modelled from the specification and the
source comments, and are marked as such in their doc comments.
-/

namespace Ghostree

/-- Process-wide state visible to the OpenGL3 backend shims.
`procs` is the global `imgl3wProcs` function-pointer table: slot `i` holds
the resolved address of entry point `i`, with `0` as the NULL sentinel.
`backendInit` and `libOpen` are the backend-internal resources and the
dynamic GL library handle(s) released by shutdown; `rest` is every other
piece of program state, kept abstract so frame conditions are expressible. -/
structure GLState (α : Type) where
  procs : List Nat
  backendInit : Bool
  libOpen : Bool
  rest : α
deriving Repr, DecidableEq

/-- Modelled from the spec: `ImGui_ImplOpenGL3_Shutdown` (backend code, not
under `src/`).  Per the source comment in `ext.cpp` and spec section 4.2 step
(1), it releases the backend's internal resources and calls `imgl3wShutdown`,
which dlcloses the GL library handles but does not zero out the function
pointers: the `procs` table is left untouched. -/
def ImGui_ImplOpenGL3_Shutdown {α : Type} (s : GLState α) : GLState α :=
  { s with backendInit := false, libOpen := false }

/-- Embedding of `memset(&imgl3wProcs, 0, sizeof(imgl3wProcs))` from
`ext.cpp`: every slot of the table is overwritten with the zero sentinel and
nothing else is touched. -/
def memsetProcsZero {α : Type} (s : GLState α) : GLState α :=
  { s with procs := List.replicate s.procs.length 0 }

/-- The two observable steps of `ImGui_ImplOpenGL3_ShutdownWithLoaderCleanup`,
recorded as a trace. -/
inductive ShutdownStep where
  | callShutdown
  | clearLoaderTable
deriving Repr, DecidableEq

/-- Embedding of `ImGui_ImplOpenGL3_ShutdownWithLoaderCleanup` from
`ext.cpp`: call `::ImGui_ImplOpenGL3_Shutdown()`, then
`memset(&imgl3wProcs, 0, sizeof(imgl3wProcs))`, in that order, with no
condition guarding either step.  The returned trace records the steps taken
in order. -/
def ImGui_ImplOpenGL3_ShutdownWithLoaderCleanup {α : Type} (s : GLState α) :
    GLState α × List ShutdownStep :=
  let s1 := ImGui_ImplOpenGL3_Shutdown s
  let s2 := memsetProcsZero s1
  (s2, [ShutdownStep.callShutdown, ShutdownStep.clearLoaderTable])

/-- Modelled from the spec: `ImGui_ImplOpenGL3_Init` together with
`imgl3wInit` (backend code, not under `src/`).  Per the source comment in
`ext.cpp` and spec section 4.2, an init call that sees stale (non-null)
pointers in the table skips loader re-initialization; an init call that
observes the all-sentinel table resolves every entry point afresh
(`resolve i` is the address the loader resolves for slot `i`) and
repopulates the table.  The returned Bool reports whether a real reload
happened. -/
def ImGui_ImplOpenGL3_Init {α : Type} (resolve : Nat → Nat) (s : GLState α) :
    GLState α × Bool :=
  if s.procs.any (fun p => p != 0) then
    ({ s with backendInit := true }, false)
  else
    ({ s with procs := (List.range s.procs.length).map resolve,
              backendInit := true, libOpen := true }, true)

/-- Every slot of a replicated-zero table passes the all-zero scan. -/
theorem all_eq_zero_replicate (n : Nat) :
    (List.replicate n 0).all (fun p => p == 0) = true := by
  induction n with
  | zero => rfl
  | succ k ih => simp [List.replicate, ih]

/-- A replicated-zero table contains no non-null slot. -/
theorem any_ne_zero_replicate (n : Nat) :
    (List.replicate n 0).any (fun p => p != 0) = false := by
  induction n with
  | zero => rfl
  | succ k ih => simp [List.replicate, ih]

/-- Overwriting a memory region `dst` with the object representation `src`
by assignment: the first `src.length` bytes of `dst` are replaced by `src`,
bytes beyond `src.length` (none, when the layouts match) are kept.  This is
the memory effect of `*reinterpret_cast<T*>(self) = defaults;` in
`ext.cpp`. -/
def overwriteBytes (dst src : List Nat) : List Nat :=
  src ++ dst.drop src.length

/-- Embedding of `ImFontConfig_ImFontConfig` from `ext.cpp`: default-construct
a native `::ImFontConfig` (its byte pattern, produced by the external imgui
library, is the input `nativeDefault`) and assign it over the bytes of the
mirrored `cimgui::ImFontConfig` pointed to by `self`. -/
def ImFontConfig_ImFontConfig (nativeDefault self : List Nat) : List Nat :=
  overwriteBytes self nativeDefault

/-- Embedding of `ImGuiStyle_ImGuiStyle` from `ext.cpp`: default-construct a
native `::ImGuiStyle` (its byte pattern, produced by the external imgui
library, is the input `nativeDefault`) and assign it over the bytes of the
mirrored `cimgui::ImGuiStyle` pointed to by `self`. -/
def ImGuiStyle_ImGuiStyle (nativeDefault self : List Nat) : List Nat :=
  overwriteBytes self nativeDefault

/-- Size and alignment of a struct layout, as seen by the compiler. -/
structure StructLayout where
  size : Nat
  align : Nat
deriving Repr, DecidableEq

/-- Embedding of the two `static_assert` lines guarding one shim constructor
in `ext.cpp`: the mirrored struct's size equals the native struct's size and
its alignment equals the native alignment. -/
def staticAssertsOK (mirrored native : StructLayout) : Bool :=
  (mirrored.size == native.size) && (mirrored.align == native.align)

/-- Whether the translation unit `ext.cpp` compiles, as a function of the
four struct layouts its `static_assert` lines inspect: both the
`ImFontConfig` pair and the `ImGuiStyle` pair must pass their size and
alignment assertions, else the build fails. -/
def extBuildCompiles (cimFontConfig natFontConfig cimStyle natStyle :
    StructLayout) : Bool :=
  staticAssertsOK cimFontConfig natFontConfig &&
    staticAssertsOK cimStyle natStyle

/-- Structured error descriptor: the domain, code and message of a platform
fault object (`NSError` / `NSException` fields). -/
structure NSErrorDesc where
  domain : String
  code : Int
  message : String
deriving Repr, DecidableEq

/-- Outcome of the underlying platform add-tabbed-window operation on a
given call: either it succeeds, or it raises a fault carrying a domain,
code and message. -/
inductive PlatformOutcome where
  | ok
  | fault (domain : String) (code : Int) (message : String)
deriving Repr, DecidableEq

/-- Modelled from the spec: the platform `NSWindow.addTabbedWindow`
operation (external framework code, not under `src/`).  `Except` models
ObjC fault propagation: `.error` is a raised fault carrying the fault
object's fields, `.ok` is normal return. -/
def addTabbedWindow (parent child : Nat) (ordered : Int)
    (outcome : PlatformOutcome) : Except NSErrorDesc Unit :=
  match outcome with
  | PlatformOutcome.ok => Except.ok ()
  | PlatformOutcome.fault d c m => Except.error ⟨d, c, m⟩

/-- Modelled from the spec: the body of `GhosttyAddTabbedWindowSafely` is
not under `src/` (only its declaration in `ObjCExceptionCatcher.h` is).
Per the spec (sections 4.1, 8) it invokes the platform operation inside a
local fault handler: on success it returns true with the error output left
unset; on a caught fault it returns false and, when the caller supplied a
non-NULL error slot, populates the slot with the fault's domain, code and
message.  The result pair is (boolean result, value written to the error
slot); the outer `Except` is the calling environment's view, where an
`.error` would be a fault propagated across the boundary. -/
def GhosttyAddTabbedWindowSafely (parent child : Nat) (ordered : Int)
    (errSlotProvided : Bool) (outcome : PlatformOutcome) :
    Except NSErrorDesc (Bool × Option NSErrorDesc) :=
  match addTabbedWindow parent child ordered outcome with
  | Except.ok _ => Except.ok (true, none)
  | Except.error e =>
      Except.ok (false, if errSlotProvided then some e else none)

/-- The C-level nullability annotation a parameter carries in a header
declaration. -/
inductive CNullability where
  | nonnull
  | nullable
  | notApplicable
deriving Repr, DecidableEq

/-- One parameter of a C function declaration: its name, its type spelling,
and its nullability annotation. -/
structure CParam where
  name : String
  ctype : String
  nullability : CNullability
deriving Repr, DecidableEq

/-- Transcription of the parameter list of the `GhosttyAddTabbedWindowSafely`
declaration in `src/macos/Sources/Helpers/ObjCExceptionCatcher.h`:
`id _Nonnull parent, id _Nonnull child, NSInteger ordered,
NSError * _Nullable * _Nullable error`. -/
def ghosttyAddTabbedWindowSafelyParams : List CParam :=
  [ ⟨"parent", "id", CNullability.nonnull⟩,
    ⟨"child", "id", CNullability.nonnull⟩,
    ⟨"ordered", "NSInteger", CNullability.notApplicable⟩,
    ⟨"error", "NSError * _Nullable *", CNullability.nullable⟩ ]

/-- Overwriting a region with a source of exactly the region's length
replaces the whole region with the source bytes. -/
theorem overwriteBytes_eq_of_length (dst src : List Nat)
    (h : dst.length = src.length) : overwriteBytes dst src = src := by
  unfold overwriteBytes
  rw [List.drop_eq_nil_of_le (le_of_eq h), List.append_nil]

/-- The length of the table after an init call is the length before it. -/
theorem procs_length_init {α : Type} (r : Nat → Nat) (s : GLState α) :
    ((ImGui_ImplOpenGL3_Init r s).1).procs.length = s.procs.length := by
  unfold ImGui_ImplOpenGL3_Init
  split <;> simp

/-- After the cleanup, the table is the all-sentinel table of its
original length. -/
theorem procs_shutdownWithLoaderCleanup {α : Type} (s : GLState α) :
    ((ImGui_ImplOpenGL3_ShutdownWithLoaderCleanup s).1).procs =
      List.replicate s.procs.length 0 := rfl

/-- An init call made on the state left by the cleanup performs a real
reload and fills the table entirely from fresh resolutions. -/
theorem init_after_cleanup_reloads {α : Type} (r : Nat → Nat)
    (s : GLState α) :
    (ImGui_ImplOpenGL3_Init r
        (ImGui_ImplOpenGL3_ShutdownWithLoaderCleanup s).1).2 = true ∧
    ((ImGui_ImplOpenGL3_Init r
        (ImGui_ImplOpenGL3_ShutdownWithLoaderCleanup s).1).1).procs =
      (List.range s.procs.length).map r := by
  have hc : ((ImGui_ImplOpenGL3_ShutdownWithLoaderCleanup s).1).procs.any
      (fun p => p != 0) = false := by
    rw [procs_shutdownWithLoaderCleanup]
    exact any_ne_zero_replicate s.procs.length
  have hL : ((ImGui_ImplOpenGL3_ShutdownWithLoaderCleanup s).1).procs.length =
      s.procs.length := by
    rw [procs_shutdownWithLoaderCleanup, List.length_replicate]
  constructor
  · unfold ImGui_ImplOpenGL3_Init
    simp [hc]
  · unfold ImGui_ImplOpenGL3_Init
    simp [hc, hL]

/-- Claim C1: for every prior state of the global function-pointer table
(any number of null or non-null entries), after
`ImGui_ImplOpenGL3_ShutdownWithLoaderCleanup` returns, every slot of the
table equals the zero/null sentinel value. -/
theorem shutdownWithLoaderCleanup_all_slots_sentinel {α : Type}
    (s : GLState α) :
    ∀ p ∈ ((ImGui_ImplOpenGL3_ShutdownWithLoaderCleanup s).1).procs,
      p = 0 := by
  intro p hp
  rw [procs_shutdownWithLoaderCleanup] at hp
  exact List.eq_of_mem_replicate hp

/-- Witness for C1: a concrete table with non-null entries is all-sentinel
after the call. -/
theorem shutdownWithLoaderCleanup_all_slots_sentinel_witness :
    (0 : Nat) ∈ ((ImGui_ImplOpenGL3_ShutdownWithLoaderCleanup
        (⟨[3, 0, 7], true, true, 42⟩ : GLState Nat)).1).procs ∧
      (0 : Nat) = 0 :=
  ⟨by decide,
    shutdownWithLoaderCleanup_all_slots_sentinel
      (⟨[3, 0, 7], true, true, 42⟩ : GLState Nat) 0 (by decide)⟩

/-- Claim C2: `ImGui_ImplOpenGL3_ShutdownWithLoaderCleanup` performs exactly
two steps in order — first the backend's standard shutdown routine, then the
unconditional overwrite of every table slot with the sentinel — and the
second step is not guarded by any condition on the post-shutdown state: the
step trace is the same for every state. -/
theorem shutdownWithLoaderCleanup_two_ordered_steps {α : Type}
    (s : GLState α) :
    ImGui_ImplOpenGL3_ShutdownWithLoaderCleanup s =
      (memsetProcsZero (ImGui_ImplOpenGL3_Shutdown s),
        [ShutdownStep.callShutdown, ShutdownStep.clearLoaderTable]) ∧
    (∀ (t : GLState α),
      (ImGui_ImplOpenGL3_ShutdownWithLoaderCleanup t).2 =
        (ImGui_ImplOpenGL3_ShutdownWithLoaderCleanup s).2) :=
  ⟨rfl, fun _ => rfl⟩

/-- Claim C3: for both covered types, the byte pattern the shim constructor
leaves in the mirrored struct equals the byte pattern of the
default-constructed native struct (whatever the native default byte patterns
are), given the layout-match guaranteed by the static assertions. -/
theorem shim_ctor_bytes_eq_native_default
    (fontDefault fontSelf styleDefault styleSelf : List Nat)
    (hf : fontSelf.length = fontDefault.length)
    (hs : styleSelf.length = styleDefault.length) :
    ImFontConfig_ImFontConfig fontDefault fontSelf = fontDefault ∧
    ImGuiStyle_ImGuiStyle styleDefault styleSelf = styleDefault :=
  ⟨overwriteBytes_eq_of_length fontSelf fontDefault hf,
    overwriteBytes_eq_of_length styleSelf styleDefault hs⟩

/-- Witness for C3 at concrete byte patterns. -/
theorem shim_ctor_bytes_eq_native_default_witness :
    ([9, 9] : List Nat).length = ([1, 2] : List Nat).length ∧
    ([7] : List Nat).length = ([4] : List Nat).length ∧
    (ImFontConfig_ImFontConfig [1, 2] [9, 9] = [1, 2] ∧
      ImGuiStyle_ImGuiStyle [4] [7] = [4]) :=
  ⟨by decide, by decide,
    shim_ctor_bytes_eq_native_default [1, 2] [9, 9] [4] [7]
      (by decide) (by decide)⟩

/-- Claim C7: `ext.cpp` contains static assertions that the mirrored struct
sizes and alignments match the native ones for both `ImFontConfig` and
`ImGuiStyle`; the build succeeds exactly when every pair matches, so a
divergence in any size or alignment fails the build rather than passing
silently. -/
theorem layout_static_asserts_guard_build
    (cimFontConfig natFontConfig cimStyle natStyle : StructLayout) :
    extBuildCompiles cimFontConfig natFontConfig cimStyle natStyle = true ↔
      (cimFontConfig.size = natFontConfig.size ∧
        cimFontConfig.align = natFontConfig.align ∧
        cimStyle.size = natStyle.size ∧
        cimStyle.align = natStyle.align) := by
  simp [extBuildCompiles, staticAssertsOK, Bool.and_eq_true, and_assoc]

/-- Claim C8: the shim constructors overwrite the entire pointed-to struct:
the result is the same for any two prior contents of `*self`, and the
constructors are idempotent. -/
theorem shim_ctor_overwrites_whole_struct
    (d s1 s2 : List Nat) (h1 : s1.length = d.length)
    (h2 : s2.length = d.length) :
    ImFontConfig_ImFontConfig d s1 = ImFontConfig_ImFontConfig d s2 ∧
    ImGuiStyle_ImGuiStyle d s1 = ImGuiStyle_ImGuiStyle d s2 ∧
    ImFontConfig_ImFontConfig d (ImFontConfig_ImFontConfig d s1) =
      ImFontConfig_ImFontConfig d s1 ∧
    ImGuiStyle_ImGuiStyle d (ImGuiStyle_ImGuiStyle d s1) =
      ImGuiStyle_ImGuiStyle d s1 := by
  have e1 : overwriteBytes s1 d = d := overwriteBytes_eq_of_length s1 d h1
  have e2 : overwriteBytes s2 d = d := overwriteBytes_eq_of_length s2 d h2
  have ed : overwriteBytes d d = d :=
    overwriteBytes_eq_of_length d d rfl
  unfold ImFontConfig_ImFontConfig ImGuiStyle_ImGuiStyle
  rw [e1, e2, ed]
  exact ⟨rfl, rfl, rfl, rfl⟩

/-- Witness for C8 at concrete byte patterns. -/
theorem shim_ctor_overwrites_whole_struct_witness :
    ([0, 1] : List Nat).length = ([5, 6] : List Nat).length ∧
    ([8, 8] : List Nat).length = ([5, 6] : List Nat).length ∧
    (ImFontConfig_ImFontConfig [5, 6] [0, 1] =
        ImFontConfig_ImFontConfig [5, 6] [8, 8] ∧
      ImGuiStyle_ImGuiStyle [5, 6] [0, 1] =
        ImGuiStyle_ImGuiStyle [5, 6] [8, 8] ∧
      ImFontConfig_ImFontConfig [5, 6]
          (ImFontConfig_ImFontConfig [5, 6] [0, 1]) =
        ImFontConfig_ImFontConfig [5, 6] [0, 1] ∧
      ImGuiStyle_ImGuiStyle [5, 6] (ImGuiStyle_ImGuiStyle [5, 6] [0, 1]) =
        ImGuiStyle_ImGuiStyle [5, 6] [0, 1]) :=
  ⟨by decide, by decide,
    shim_ctor_overwrites_whole_struct [5, 6] [0, 1] [8, 8]
      (by decide) (by decide)⟩

/-- Claim C4: for any input on which the underlying platform
add-tabbed-window operation raises a fault, `GhosttyAddTabbedWindowSafely`
returns false, populates the error output slot with a non-empty descriptor
carrying the platform fault's domain, code and message, and lets no fault
propagate to the calling environment (the result is `Except.ok`, never
`Except.error`). -/
theorem addTabbedWindowSafely_fault_contract
    (parent child : Nat) (ordered : Int)
    (d : String) (c : Int) (m : String) :
    GhosttyAddTabbedWindowSafely parent child ordered true
        (PlatformOutcome.fault d c m) =
      Except.ok (false, some ⟨d, c, m⟩) := rfl

/-- Claim C5: for every (parent, child, order) triple on which the
underlying platform operation succeeds, `GhosttyAddTabbedWindowSafely`
returns true, leaves the error output slot unset, and no fault propagates. -/
theorem addTabbedWindowSafely_success_contract
    (parent child : Nat) (ordered : Int) (errSlotProvided : Bool) :
    GhosttyAddTabbedWindowSafely parent child ordered errSlotProvided
        PlatformOutcome.ok =
      Except.ok (true, none) := rfl

/-- Claim C6: the sequence init → shutdown-with-loader-cleanup → init leaves
the table fully repopulated by the second init (every entry a fresh
resolution under the second loader pass; nothing carried over from the first
load or from the original table), and the second init really reloads: the
state after the cleanup never lets an init skip reloading. -/
theorem init_cleanup_init_fully_repopulates {α : Type} (s : GLState α)
    (r1 r2 : Nat → Nat) :
    (ImGui_ImplOpenGL3_Init r2
        (ImGui_ImplOpenGL3_ShutdownWithLoaderCleanup
          (ImGui_ImplOpenGL3_Init r1 s).1).1).2 = true ∧
    ((ImGui_ImplOpenGL3_Init r2
        (ImGui_ImplOpenGL3_ShutdownWithLoaderCleanup
          (ImGui_ImplOpenGL3_Init r1 s).1).1).1).procs =
      (List.range s.procs.length).map r2 := by
  have h := init_after_cleanup_reloads r2 (ImGui_ImplOpenGL3_Init r1 s).1
  refine ⟨h.1, ?_⟩
  rw [h.2, procs_length_init]

/-- Claim C9: in the declaration of `GhosttyAddTabbedWindowSafely`, the
error output slot is annotated nullable while the parent and child handles
are annotated non-null; and a caller passing NULL for the error slot still
receives the boolean result (the same boolean a slot-passing caller gets),
with nothing written and no fault propagated. -/
theorem addTabbedWindowSafely_nullability :
    ghosttyAddTabbedWindowSafelyParams.map
        (fun p => (p.name, p.nullability)) =
      [("parent", CNullability.nonnull), ("child", CNullability.nonnull),
        ("ordered", CNullability.notApplicable),
        ("error", CNullability.nullable)] ∧
    (∀ (parent child : Nat) (ordered : Int) (outcome : PlatformOutcome),
      (GhosttyAddTabbedWindowSafely parent child ordered false
          outcome).toOption.map Prod.fst =
        (GhosttyAddTabbedWindowSafely parent child ordered true
          outcome).toOption.map Prod.fst ∧
      ∃ b, GhosttyAddTabbedWindowSafely parent child ordered false outcome =
        Except.ok (b, none)) := by
  refine ⟨rfl, fun parent child ordered outcome => ?_⟩
  cases outcome with
  | ok => exact ⟨rfl, true, rfl⟩
  | fault d c m => exact ⟨rfl, false, rfl⟩

/-- Claim C10: the loader-cleanup step mutates exactly the bytes of the
`imgl3wProcs` table — it leaves every other component of the state
unchanged — and so everything other than the table is changed by
`ImGui_ImplOpenGL3_ShutdownWithLoaderCleanup` exactly as
`ImGui_ImplOpenGL3_Shutdown` alone changes it. -/
theorem shutdownWithLoaderCleanup_frame {α : Type} (s : GLState α) :
    (memsetProcsZero s).backendInit = s.backendInit ∧
    (memsetProcsZero s).libOpen = s.libOpen ∧
    (memsetProcsZero s).rest = s.rest ∧
    (memsetProcsZero s).procs = List.replicate s.procs.length 0 ∧
    ((ImGui_ImplOpenGL3_ShutdownWithLoaderCleanup s).1).backendInit =
      (ImGui_ImplOpenGL3_Shutdown s).backendInit ∧
    ((ImGui_ImplOpenGL3_ShutdownWithLoaderCleanup s).1).libOpen =
      (ImGui_ImplOpenGL3_Shutdown s).libOpen ∧
    ((ImGui_ImplOpenGL3_ShutdownWithLoaderCleanup s).1).rest =
      (ImGui_ImplOpenGL3_Shutdown s).rest :=
  ⟨rfl, rfl, rfl, rfl, rfl, rfl, rfl⟩

end Ghostree
